import Mathlib

/-!
Verification model of the miro-mcp repository (TypeScript sources
`src/MiroClient.ts` and `src/index.ts`).

The embedding works at two levels:

* HTTP level: `fetchApiHandle` models the response-interpretation part of
  `MiroClient.fetchApi` (MiroClient.ts lines 112–135): a response is a
  status, status text, body text and optional content-type header; the
  handler either throws (modelled as `Except.error`) or produces a decoded
  result (`FetchOut`).  Request bodies are abstracted away: no property
  below depends on the serialized JSON payload, only on which endpoint is
  hit with which method.

* Client level: the individual client operations (`updateItem`,
  `deleteItem`, `createConnector`, the per-type `createX` helpers used by
  `bulkCreateItems`) are modelled against an abstract network oracle
  `net : Request → Except String MiroItem` standing for `fetchApi` plus
  JSON decoding; every operation also reports the list of requests it
  issued, so that call-count properties ("zero remote calls") are
  statable.  The bulk operations (MiroClient.ts lines 523–660) are
  for-loops with a per-element try/catch; they are modelled with the
  structurally recursive `bulkLoop`, which appends successes in encounter
  order exactly as the source pushes onto its accumulator array.
-/

namespace Miro

/-- An HTTP request issued by the client: method and URL path (relative to
the fixed base `https://api.miro.com/v2`).  The JSON body and query
parameters are abstracted away — no verified property depends on them. -/
structure Request where
  method : String
  path : String
deriving DecidableEq, Repr

/-- An HTTP response as observed by `fetchApi`: status code, status text,
raw body text, and the optional `content-type` header. -/
structure HttpResponse where
  status : Nat
  statusText : String
  bodyText : String
  contentType : Option String
deriving DecidableEq, Repr

/-- `response.ok` of node-fetch: status in the 2xx-range `[200, 300)`. -/
def respOk (r : HttpResponse) : Bool :=
  decide (200 ≤ r.status) && decide (r.status < 300)

/-- The error message thrown by `fetchApi` on a non-ok response
(MiroClient.ts line 123). -/
def apiErrorMsg (r : HttpResponse) : String :=
  "Miro API error: " ++ toString r.status ++ " " ++ r.statusText ++ " - " ++ r.bodyText

/-- `sub` occurs as a contiguous segment of `l`: it is a prefix of some
suffix (the empty `sub` occurs everywhere, as in JavaScript). -/
def listIncludes (sub : List Char) : List Char → Bool
  | [] => sub.isEmpty
  | c :: rest => sub.isPrefixOf (c :: rest) || listIncludes sub rest

/-- JavaScript `String.prototype.includes`: `sub` occurs somewhere in
`s`. -/
def includesStr (s sub : String) : Bool :=
  listIncludes sub.data s.data

/-- Result of a successful `fetchApi` call: either the normalized empty
object `{}` or the JSON-decoded response body (kept abstract as the raw
body text). -/
inductive FetchOut where
  | emptyObj : FetchOut
  | jsonBody (body : String) : FetchOut
deriving DecidableEq, Repr

/-- Response interpretation of `MiroClient.fetchApi`
(MiroClient.ts lines 121–135):
non-2xx throws a `Miro API error`; status 204 or method DELETE yields the
empty object without touching the body; otherwise the body is JSON-decoded
when the content-type header includes `application/json`, and the empty
object is returned when it does not (or is absent). -/
def fetchApiHandle (method : String) (r : HttpResponse) : Except String FetchOut :=
  if !respOk r then
    .error (apiErrorMsg r)
  else if r.status == 204 || method == "DELETE" then
    .ok .emptyObj
  else
    match r.contentType with
    | some ct => if includesStr ct "application/json" then .ok (.jsonBody r.bodyText) else .ok .emptyObj
    | none => .ok .emptyObj

/-- `fetchApi` against an HTTP environment `http` delivering the response
for each request: issue the request, interpret the response. -/
def fetchApiH (http : Request → HttpResponse) (req : Request) : Except String FetchOut :=
  fetchApiHandle req.method (http req)

/-- Path of the generic item endpoint `/boards/{boardId}/items/{itemId}`. -/
def itemPath (boardId itemId : String) : String :=
  "/boards/" ++ boardId ++ "/items/" ++ itemId

/-- `MiroClient.getItem` at the HTTP level (MiroClient.ts lines 194–196):
a single GET of the generic item endpoint, errors propagated unchanged. -/
def getItemHttp (http : Request → HttpResponse) (boardId itemId : String) : Except String FetchOut :=
  fetchApiH http { method := "GET", path := itemPath boardId itemId }

/-- `MiroClient.deleteItem` at the HTTP level (MiroClient.ts lines 240–242):
a single DELETE of the generic item endpoint. -/
def deleteItemHttp (http : Request → HttpResponse) (boardId itemId : String) : Except String FetchOut :=
  fetchApiH http { method := "DELETE", path := itemPath boardId itemId }

/-- `MiroClient.createStickyNote` at the HTTP level
(MiroClient.ts lines 245–265): a single POST to the sticky-notes endpoint
(the request body is abstracted). -/
def createStickyNoteHttp (http : Request → HttpResponse) (boardId : String) : Except String FetchOut :=
  fetchApiH http { method := "POST", path := "/boards/" ++ boardId ++ "/sticky_notes" }

/-- A board item as the client sees it: its id and its `type` discriminant
string (MiroClient.ts `MiroItem`, lines 28–40; the free-form `data`,
`style`, `geometry`, `position` fields are abstracted away). -/
structure MiroItem where
  id : String
  type : String
deriving DecidableEq, Repr

/-- The abstract network oracle: `fetchApi` plus JSON decoding, delivering
for each request either a decoded item or the thrown error message. -/
def Net : Type := Request → Except String MiroItem

/-- The endpoint chosen by `MiroClient.updateItem` for an item of type `t`
(the `switch` on `item.type`, MiroClient.ts lines 202–232): one of the
nine typed sub-resources, or the generic item endpoint as default. -/
def typedUpdateEndpoint (boardId itemId : String) (t : String) : String :=
  match t with
  | "sticky_note" => "/boards/" ++ boardId ++ "/sticky_notes/" ++ itemId
  | "shape" => "/boards/" ++ boardId ++ "/shapes/" ++ itemId
  | "text" => "/boards/" ++ boardId ++ "/texts/" ++ itemId
  | "card" => "/boards/" ++ boardId ++ "/cards/" ++ itemId
  | "connector" => "/boards/" ++ boardId ++ "/connectors/" ++ itemId
  | "frame" => "/boards/" ++ boardId ++ "/frames/" ++ itemId
  | "image" => "/boards/" ++ boardId ++ "/images/" ++ itemId
  | "document" => "/boards/" ++ boardId ++ "/documents/" ++ itemId
  | "embed" => "/boards/" ++ boardId ++ "/embeds/" ++ itemId
  | _ => itemPath boardId itemId

/-- The nine item types with a dedicated update endpoint. -/
def supportedUpdateTypes : List String :=
  ["sticky_note", "shape", "text", "card", "connector", "frame", "image", "document", "embed"]

/-- `MiroClient.updateItem` (MiroClient.ts lines 198–238): first GET the
item from the generic endpoint to learn its `type`, then PATCH the typed
endpoint selected by the `switch`.  Returns the outcome and the list of
requests issued, in order.  (The `data` argument only feeds the PATCH
body, which is abstracted.) -/
def updateItem (net : Net) (boardId itemId : String) : Except String MiroItem × List Request :=
  let getReq : Request := { method := "GET", path := itemPath boardId itemId }
  match net getReq with
  | .error e => (.error e, [getReq])
  | .ok item =>
    let patchReq : Request := { method := "PATCH", path := typedUpdateEndpoint boardId itemId item.type }
    (net patchReq, [getReq, patchReq])

/-- `MiroClient.deleteItem` against the abstract oracle: one DELETE of the
generic item endpoint; the (empty) success value is discarded
(MiroClient.ts lines 240–242). -/
def deleteItem (net : Net) (boardId itemId : String) : Except String Unit × List Request :=
  let req : Request := { method := "DELETE", path := itemPath boardId itemId }
  match net req with
  | .ok _ => (.ok (), [req])
  | .error e => (.error e, [req])

/-- A connector-creation specification as `bulkCreateConnectors` receives
it (MiroClient.ts lines 638–643): start and end item ids (caption and
style only shape the abstracted body). -/
structure ConnectorSpec where
  startItemId : String
  endItemId : String
deriving DecidableEq, Repr

/-- `MiroClient.createConnector` against the abstract oracle
(MiroClient.ts lines 376–397): one POST to the board's connectors
endpoint. -/
def createConnector (net : Net) (boardId : String) (_c : ConnectorSpec) :
    Except String MiroItem × List Request :=
  let req : Request := { method := "POST", path := "/boards/" ++ boardId ++ "/connectors" }
  (net req, [req])

/-- The item-type union of `CreateItemData` (MiroClient.ts line 90). -/
inductive CreateItemType where
  | sticky_note | shape | text | card | connector | frame | image | document | embed | app_card
deriving DecidableEq, Repr

/-- The TypeScript string literal for each `CreateItemType` value. -/
def CreateItemType.toStr : CreateItemType → String
  | .sticky_note => "sticky_note"
  | .shape => "shape"
  | .text => "text"
  | .card => "card"
  | .connector => "connector"
  | .frame => "frame"
  | .image => "image"
  | .document => "document"
  | .embed => "embed"
  | .app_card => "app_card"

/-- One element of a `bulkCreateItems` batch (MiroClient.ts lines 89–96):
only the `type` discriminant is kept; `data`, `style`, `position`,
`geometry`, `parent` only shape the abstracted request bodies. -/
structure CreateItemData where
  type : CreateItemType
deriving DecidableEq, Repr

/-- The per-element body of the `bulkCreateItems` loop: the `switch` on
`item.type` (MiroClient.ts lines 532–596).  Each supported type calls the
corresponding `createX` helper, which issues exactly one POST to that
type's endpoint; the `default` branch throws
`Unsupported item type: ...` before any request is issued. -/
def createItemCall (net : Net) (boardId : String) (item : CreateItemData) :
    Except String MiroItem × List Request :=
  match item.type with
  | .sticky_note =>
    let req : Request := { method := "POST", path := "/boards/" ++ boardId ++ "/sticky_notes" }
    (net req, [req])
  | .text =>
    let req : Request := { method := "POST", path := "/boards/" ++ boardId ++ "/texts" }
    (net req, [req])
  | .shape =>
    let req : Request := { method := "POST", path := "/boards/" ++ boardId ++ "/shapes" }
    (net req, [req])
  | .card =>
    let req : Request := { method := "POST", path := "/boards/" ++ boardId ++ "/cards" }
    (net req, [req])
  | .frame =>
    let req : Request := { method := "POST", path := "/boards/" ++ boardId ++ "/frames" }
    (net req, [req])
  | .image =>
    let req : Request := { method := "POST", path := "/boards/" ++ boardId ++ "/images" }
    (net req, [req])
  | .document =>
    let req : Request := { method := "POST", path := "/boards/" ++ boardId ++ "/documents" }
    (net req, [req])
  | .embed =>
    let req : Request := { method := "POST", path := "/boards/" ++ boardId ++ "/embeds" }
    (net req, [req])
  | .connector => (.error "Unsupported item type: connector", [])
  | .app_card => (.error "Unsupported item type: app_card", [])

/-- The shared for-loop shape of all four bulk operations
(MiroClient.ts lines 528–601, 611–621, 629–635, 648–657): iterate the
list in order; on success push the result onto the accumulator (encounter
order), on failure log and continue (the element is dropped).  Also
collects every request issued.  Structural recursion that conses the head
result onto the recursively accumulated tail yields exactly the source's
push-in-order list. -/
def bulkLoop (call : α → Except String β × List Request) : List α → List β × List Request
  | [] => ([], [])
  | x :: xs =>
    let r := call x
    let rest := bulkLoop call xs
    match r.1 with
    | .ok b => (b :: rest.1, r.2 ++ rest.2)
    | .error _ => (rest.1, r.2 ++ rest.2)

/-- `MiroClient.bulkCreateItems` (MiroClient.ts lines 523–604): reject
batches longer than 20 up front (before any request), otherwise run the
per-element `switch` loop with per-element failure isolation. -/
def bulkCreateItems (net : Net) (boardId : String) (items : List CreateItemData) :
    Except String (List MiroItem) × List Request :=
  if items.length > 20 then
    (.error "Cannot create more than 20 items in a single bulk operation", [])
  else
    let r := bulkLoop (createItemCall net boardId) items
    (.ok r.1, r.2)

/-- One element of a `bulkUpdateItems` batch: item id (the free-form
`data` only shapes the abstracted PATCH body). -/
structure UpdateSpec where
  id : String
deriving DecidableEq, Repr

/-- `MiroClient.bulkUpdateItems` (MiroClient.ts lines 606–622): size guard,
then a loop of `updateItem` calls with per-element failure isolation. -/
def bulkUpdateItems (net : Net) (boardId : String) (updates : List UpdateSpec) :
    Except String (List MiroItem) × List Request :=
  if updates.length > 20 then
    (.error "Cannot update more than 20 items in a single bulk operation", [])
  else
    let r := bulkLoop (fun u => updateItem net boardId u.id) updates
    (.ok r.1, r.2)

/-- `MiroClient.bulkDeleteItems` (MiroClient.ts lines 624–636): size guard,
then a loop of `deleteItem` calls; nothing is accumulated (void return),
failures are logged and swallowed. -/
def bulkDeleteItems (net : Net) (boardId : String) (itemIds : List String) :
    Except String Unit × List Request :=
  if itemIds.length > 20 then
    (.error "Cannot delete more than 20 items in a single bulk operation", [])
  else
    (.ok (), (bulkLoop (fun i => deleteItem net boardId i) itemIds).2)

/-- `MiroClient.bulkCreateConnectors` (MiroClient.ts lines 638–660): size
guard (note the distinct message), then a loop of `createConnector` calls
with per-element failure isolation. -/
def bulkCreateConnectors (net : Net) (boardId : String) (connectors : List ConnectorSpec) :
    Except String (List MiroItem) × List Request :=
  if connectors.length > 20 then
    (.error "Cannot create more than 20 connectors at once", [])
  else
    let r := bulkLoop (fun c => createConnector net boardId c) connectors
    (.ok r.1, r.2)

/-- JavaScript truthiness of an optional string: `undefined` and the empty
string are falsy. -/
def truthyStr : Option String → Bool
  | none => false
  | some s => !(s == "")

/-- Token resolution of `index.ts` line 30:
`const oauthToken = (argv.token as string) || process.env.MIRO_OAUTH_TOKEN`
— JavaScript `||` takes the left operand only when it is truthy, so an
empty-string command-line token falls through to the environment
variable. -/
def resolveOauthToken (argvToken envToken : Option String) : Option String :=
  if truthyStr argvToken then argvToken else envToken

/-- The startup guard of `index.ts` lines 35–40: `if (!oauthToken)
process.exit(1)` — the process exits fatally (before the MCP server or
the `MiroClient` is constructed) exactly when the resolved token is
falsy. -/
def startupExitsFatally (argvToken envToken : Option String) : Bool :=
  !truthyStr (resolveOauthToken argvToken envToken)

/-! ## Concrete sample environments (used by witness theorems) -/

/-- A sample decoded item of type `sticky_note`. -/
def sampleItem : MiroItem := { id := "i1", type := "sticky_note" }

/-- A sample decoded item of type `shape`. -/
def shapeItem : MiroItem := { id := "i1", type := "shape" }

/-- A network oracle on which every request succeeds with `sampleItem`. -/
def netOk : Net := fun _ => .ok sampleItem

/-- A network oracle on which every request succeeds with `shapeItem`. -/
def netShape : Net := fun _ => .ok shapeItem

/-- A network oracle that fails on the connectors endpoint of board `b`
and on the generic-item endpoint of item `bad`, and succeeds elsewhere. -/
def netMixed : Net := fun r =>
  if r.path = "/boards/b/connectors" then .error "connector down"
  else if r.path = itemPath "b" "bad" then .error "item missing"
  else .ok sampleItem

/-- A sample 404 response. -/
def resp404 : HttpResponse :=
  { status := 404, statusText := "Not Found", bodyText := "nope", contentType := none }

/-- An HTTP environment answering 404 to everything. -/
def http404 : Request → HttpResponse := fun _ => resp404

/-- A sample 204 No Content response. -/
def resp204 : HttpResponse :=
  { status := 204, statusText := "No Content", bodyText := "", contentType := none }

/-- A sample empty 200 response with no content-type header. -/
def resp200empty : HttpResponse :=
  { status := 200, statusText := "OK", bodyText := "", contentType := none }

/-- An HTTP environment answering an empty 200 to everything. -/
def http200 : Request → HttpResponse := fun _ => resp200empty

/-- A sample successful response with a non-JSON content type. -/
def respHtml : HttpResponse :=
  { status := 200, statusText := "OK", bodyText := "<p>hi</p>", contentType := some "text/html" }

/-! ## Helper lemmas -/

/-- The bulk loop distributes over list append: results and issued
requests of the two halves are concatenated in order. -/
theorem bulkLoop_append (call : α → Except String β × List Request) (l₁ l₂ : List α) :
    bulkLoop call (l₁ ++ l₂) =
      ((bulkLoop call l₁).1 ++ (bulkLoop call l₂).1,
       (bulkLoop call l₁).2 ++ (bulkLoop call l₂).2) := by
  induction l₁ with
  | nil => simp [bulkLoop]
  | cons x xs ih =>
    cases h : (call x).1 with
    | ok b => simp [bulkLoop, h, ih, List.append_assoc]
    | error e => simp [bulkLoop, h, ih, List.append_assoc]

/-- When every element of the list succeeds, the bulk loop returns exactly
the per-element results, in input order. -/
theorem bulkLoop_all_ok (call : α → Except String β × List Request) (f : α → β)
    (l : List α) (h : ∀ x ∈ l, (call x).1 = .ok (f x)) :
    (bulkLoop call l).1 = l.map f := by
  induction l with
  | nil => simp [bulkLoop]
  | cons x xs ih =>
    have hx := h x (by simp)
    simp only [bulkLoop, hx, List.map_cons]
    exact congrArg _ (ih fun y hy => h y (by simp [hy]))

/-- Cancellation for path strings of the shape `p ++ mid ++ suffix`: equal
full paths with equal outer parts force equal middle segments. -/
theorem append_mid_inj (p s t i : String) (h : p ++ s ++ i = p ++ t ++ i) : s = t := by
  have hd : (p.data ++ s.data) ++ i.data = (p.data ++ t.data) ++ i.data := by
    have := congrArg String.data h
    simpa [String.data_append] using this
  have hps : p.data ++ s.data = p.data ++ t.data := List.append_cancel_right hd
  have : s.data = t.data := List.append_cancel_left hps
  exact congrArg String.mk this

/-! ## Claims -/

/-- C1: for every batch input of length strictly greater than 20, each of
the four batch operations (`bulkCreateItems`, `bulkUpdateItems`,
`bulkDeleteItems`, `bulkCreateConnectors`) fails immediately with its
fixed size-limit error and issues zero Remote Resource Client calls (empty
request trace), so no prefix of the batch is processed. -/
theorem claim_c1 (net : Net) (boardId : String)
    (items : List CreateItemData) (updates : List UpdateSpec)
    (itemIds : List String) (connectors : List ConnectorSpec)
    (h1 : items.length > 20) (h2 : updates.length > 20)
    (h3 : itemIds.length > 20) (h4 : connectors.length > 20) :
    bulkCreateItems net boardId items =
      (.error "Cannot create more than 20 items in a single bulk operation", [])
    ∧ bulkUpdateItems net boardId updates =
      (.error "Cannot update more than 20 items in a single bulk operation", [])
    ∧ bulkDeleteItems net boardId itemIds =
      (.error "Cannot delete more than 20 items in a single bulk operation", [])
    ∧ bulkCreateConnectors net boardId connectors =
      (.error "Cannot create more than 20 connectors at once", []) := by
  refine ⟨?_, ?_, ?_, ?_⟩
  · simp only [bulkCreateItems]; rw [if_pos h1]
  · simp only [bulkUpdateItems]; rw [if_pos h2]
  · simp only [bulkDeleteItems]; rw [if_pos h3]
  · simp only [bulkCreateConnectors]; rw [if_pos h4]

/-- Witness for C1 at concrete batches of length 21. -/
theorem claim_c1_witness :
    bulkCreateItems netOk "b" (List.replicate 21 ⟨CreateItemType.sticky_note⟩) =
      (.error "Cannot create more than 20 items in a single bulk operation", [])
    ∧ bulkUpdateItems netOk "b" (List.replicate 21 ⟨"u"⟩) =
      (.error "Cannot update more than 20 items in a single bulk operation", [])
    ∧ bulkDeleteItems netOk "b" (List.replicate 21 "i") =
      (.error "Cannot delete more than 20 items in a single bulk operation", [])
    ∧ bulkCreateConnectors netOk "b" (List.replicate 21 ⟨"s", "t"⟩) =
      (.error "Cannot create more than 20 connectors at once", []) :=
  claim_c1 netOk "b" (List.replicate 21 ⟨CreateItemType.sticky_note⟩)
    (List.replicate 21 ⟨"u"⟩) (List.replicate 21 "i") (List.replicate 21 ⟨"s", "t"⟩)
    (by simp) (by simp) (by simp) (by simp)

/-- C4: for the empty batch input list, every batch operation returns an
empty result (the empty list, or unit success for deletes) and issues zero
Remote Resource Client calls. -/
theorem claim_c4 (net : Net) (boardId : String) :
    bulkCreateItems net boardId [] = (.ok [], [])
    ∧ bulkUpdateItems net boardId [] = (.ok [], [])
    ∧ bulkDeleteItems net boardId [] = (.ok (), [])
    ∧ bulkCreateConnectors net boardId [] = (.ok [], []) := by
  refine ⟨?_, ?_, ?_, ?_⟩ <;>
    simp [bulkCreateItems, bulkUpdateItems, bulkDeleteItems, bulkCreateConnectors, bulkLoop]

/-- C3: for every batch input of length at most 20 in which every
element's underlying client call succeeds, the batch operation's result
list equals the per-element results in input order (same length, same
order); shown for `bulkCreateItems` and `bulkUpdateItems`. -/
theorem claim_c3 (net : Net) (boardId : String)
    (items : List CreateItemData) (updates : List UpdateSpec)
    (f : CreateItemData → MiroItem) (g : UpdateSpec → MiroItem)
    (hlen1 : items.length ≤ 20) (hlen2 : updates.length ≤ 20)
    (hok1 : ∀ it ∈ items, (createItemCall net boardId it).1 = .ok (f it))
    (hok2 : ∀ u ∈ updates, (updateItem net boardId u.id).1 = .ok (g u)) :
    (bulkCreateItems net boardId items).1 = .ok (items.map f)
    ∧ (bulkUpdateItems net boardId updates).1 = .ok (updates.map g) := by
  constructor
  · simp only [bulkCreateItems]
    rw [if_neg (by omega)]
    simp [bulkLoop_all_ok _ f items hok1]
  · simp only [bulkUpdateItems]
    rw [if_neg (by omega)]
    simp [bulkLoop_all_ok _ g updates hok2]

/-- Witness for C3: a two-element create batch and a one-element update
batch on an all-success network, both returning all results in order. -/
theorem claim_c3_witness :
    (bulkCreateItems netOk "b" [⟨CreateItemType.sticky_note⟩, ⟨CreateItemType.shape⟩]).1 =
      .ok [sampleItem, sampleItem]
    ∧ (bulkUpdateItems netOk "b" [⟨"u1"⟩]).1 = .ok [sampleItem] :=
  claim_c3 netOk "b" [⟨CreateItemType.sticky_note⟩, ⟨CreateItemType.shape⟩] [⟨"u1"⟩]
    (fun _ => sampleItem) (fun _ => sampleItem)
    (by simp) (by simp)
    (by intro it hit; fin_cases hit <;> rfl)
    (by intro u hu; fin_cases hu; rfl)

/-- The bulk loop drops a single failing element and keeps the results of
all succeeding elements in their input order. -/
theorem bulkLoop_one_fail (call : α → Except String β × List Request) (f : α → β)
    (xs ys : List α) (bad : α) (e : String)
    (hok : ∀ x ∈ xs ++ ys, (call x).1 = .ok (f x))
    (hbad : (call bad).1 = .error e) :
    (bulkLoop call (xs ++ bad :: ys)).1 = xs.map f ++ ys.map f := by
  have hxs : ∀ x ∈ xs, (call x).1 = .ok (f x) := fun x hx => hok x (by simp [hx])
  have hys : ∀ x ∈ ys, (call x).1 = .ok (f x) := fun x hx => hok x (by simp [hx])
  rw [bulkLoop_append]
  simp only [bulkLoop, hbad]
  rw [bulkLoop_all_ok _ f xs hxs, bulkLoop_all_ok _ f ys hys]

/-- C2: for every batch input of length at most 20 in which exactly one
element's underlying client call fails and all others succeed, the batch
returns successfully (the failure never aborts the batch nor propagates)
with the succeeding elements' results in their relative input order, the
failing element absent, and the result one shorter than the input; shown
for `bulkUpdateItems` and `bulkCreateConnectors`. -/
theorem claim_c2 (net : Net) (boardId : String)
    (xs ys : List UpdateSpec) (bad : UpdateSpec) (g : UpdateSpec → MiroItem) (e : String)
    (cs ds : List ConnectorSpec) (badc : ConnectorSpec) (k : ConnectorSpec → MiroItem) (ec : String)
    (hlen : (xs ++ bad :: ys).length ≤ 20)
    (hok : ∀ u ∈ xs ++ ys, (updateItem net boardId u.id).1 = .ok (g u))
    (hbad : (updateItem net boardId bad.id).1 = .error e)
    (hlenc : (cs ++ badc :: ds).length ≤ 20)
    (hokc : ∀ c ∈ cs ++ ds, (createConnector net boardId c).1 = .ok (k c))
    (hbadc : (createConnector net boardId badc).1 = .error ec) :
    (bulkUpdateItems net boardId (xs ++ bad :: ys)).1 = .ok (xs.map g ++ ys.map g)
    ∧ (xs.map g ++ ys.map g).length = (xs ++ bad :: ys).length - 1
    ∧ (bulkCreateConnectors net boardId (cs ++ badc :: ds)).1 = .ok (cs.map k ++ ds.map k)
    ∧ (cs.map k ++ ds.map k).length = (cs ++ badc :: ds).length - 1 := by
  refine ⟨?_, by simp, ?_, by simp⟩
  · simp only [bulkUpdateItems]
    rw [if_neg (by omega)]
    simp [bulkLoop_one_fail (fun u => updateItem net boardId u.id) g xs ys bad e hok hbad]
  · simp only [bulkCreateConnectors]
    rw [if_neg (by omega)]
    simp [bulkLoop_one_fail (fun c => createConnector net boardId c) k cs ds badc ec hokc hbadc]

/-- Witness for C2: on `netMixed`, updating `[g1, bad, g2]` on board `b`
yields the two good results in order, and a one-element connector batch
whose only element fails yields the empty list. -/
theorem claim_c2_witness :
    (bulkUpdateItems netMixed "b" [⟨"g1"⟩, ⟨"bad"⟩, ⟨"g2"⟩]).1 =
      .ok [sampleItem, sampleItem]
    ∧ ([sampleItem, sampleItem] : List MiroItem).length = 3 - 1
    ∧ (bulkCreateConnectors netMixed "b" [⟨"s", "t"⟩]).1 = .ok []
    ∧ ([] : List MiroItem).length = 1 - 1 :=
  claim_c2 netMixed "b" [⟨"g1"⟩] [⟨"g2"⟩] ⟨"bad"⟩ (fun _ => sampleItem) "item missing"
    [] [] ⟨"s", "t"⟩ (fun _ => sampleItem) "connector down"
    (by simp) (by intro u hu; fin_cases hu <;> rfl) rfl
    (by simp) (by intro c hc; simp at hc) rfl

/-- C9: a `bulkCreateItems` element whose type is `connector` or
`app_card` hits the switch's default branch, whose thrown
"Unsupported item type" error is caught by the per-element handler: the
per-element call yields that error with zero requests issued (no fallback
to a generic creation endpoint), and the whole batch behaves exactly as if
the element were absent. -/
theorem claim_c9 (net : Net) (boardId : String) (c : CreateItemData)
    (xs ys : List CreateItemData)
    (hc : c.type = CreateItemType.connector ∨ c.type = CreateItemType.app_card)
    (hlen : (xs ++ c :: ys).length ≤ 20) :
    createItemCall net boardId c =
      (.error ("Unsupported item type: " ++ c.type.toStr), [])
    ∧ bulkCreateItems net boardId (xs ++ c :: ys) = bulkCreateItems net boardId (xs ++ ys) := by
  obtain ⟨t⟩ := c
  have hcall : createItemCall net boardId ⟨t⟩ =
      (.error ("Unsupported item type: " ++ CreateItemType.toStr t), []) := by
    rcases hc with h | h <;> (simp only at h; subst h; rfl)
  refine ⟨hcall, ?_⟩
  have hlen2 : (xs ++ ys).length ≤ 20 := by
    simp only [List.length_append, List.length_cons] at hlen ⊢
    omega
  have hstep : bulkLoop (createItemCall net boardId) (⟨t⟩ :: ys) =
      bulkLoop (createItemCall net boardId) ys := by
    simp [bulkLoop, hcall]
  simp only [bulkCreateItems]
  rw [if_neg (by omega), if_neg (by omega)]
  rw [bulkLoop_append, bulkLoop_append, hstep]

/-- Witness for C9: inserting a `connector` element between a sticky note
and a text element leaves the batch result and request trace unchanged. -/
theorem claim_c9_witness :
    createItemCall netOk "b" ⟨CreateItemType.connector⟩ =
      (.error "Unsupported item type: connector", [])
    ∧ bulkCreateItems netOk "b"
        [⟨CreateItemType.sticky_note⟩, ⟨CreateItemType.connector⟩, ⟨CreateItemType.text⟩] =
      bulkCreateItems netOk "b" [⟨CreateItemType.sticky_note⟩, ⟨CreateItemType.text⟩] :=
  claim_c9 netOk "b" ⟨CreateItemType.connector⟩
    [⟨CreateItemType.sticky_note⟩] [⟨CreateItemType.text⟩]
    (Or.inl rfl) (by simp)

/-- Two paths `/boards/{b}{s}{i}` and `/boards/{b}{t}{i}` with distinct
middle segments are distinct strings. -/
theorem seg_path_ne (b i s t : String) (hst : s ≠ t) :
    "/boards/" ++ b ++ s ++ i ≠ "/boards/" ++ b ++ t ++ i :=
  fun h => hst (append_mid_inj ("/boards/" ++ b) s t i h)

/-- C5: a generic `updateItem` first issues a GET of the generic item
endpoint to discover the item's `type`, then issues the PATCH against the
endpoint the type routes to; each of the nine recognized types routes to
its own typed endpoint, which is never the generic item endpoint (in
particular type `"shape"` goes to the shapes endpoint), and any other type
falls back to the generic item endpoint. -/
theorem claim_c5 (net : Net) (boardId itemId : String) (item : MiroItem)
    (hget : net { method := "GET", path := itemPath boardId itemId } = .ok item) :
    (updateItem net boardId itemId).2 =
      [{ method := "GET", path := itemPath boardId itemId },
       { method := "PATCH", path := typedUpdateEndpoint boardId itemId item.type }]
    ∧ (item.type = "shape" →
        typedUpdateEndpoint boardId itemId item.type =
          "/boards/" ++ boardId ++ "/shapes/" ++ itemId)
    ∧ (∀ t ∈ supportedUpdateTypes,
        typedUpdateEndpoint boardId itemId t ≠ itemPath boardId itemId)
    ∧ (item.type ∉ supportedUpdateTypes →
        typedUpdateEndpoint boardId itemId item.type = itemPath boardId itemId) := by
  refine ⟨?_, ?_, ?_, ?_⟩
  · simp [updateItem, hget]
  · intro h
    rw [h]
    rfl
  · intro t ht
    fin_cases ht <;>
      exact seg_path_ne boardId itemId _ "/items/" (by decide)
  · intro hns
    simp only [supportedUpdateTypes, List.mem_cons, not_or, List.not_mem_nil,
      not_false_iff, and_true] at hns
    unfold typedUpdateEndpoint
    split
    all_goals simp_all

/-- Witness for C5: on a network whose GET returns a `shape` item, the
update issues the GET then a PATCH of the shapes endpoint. -/
theorem claim_c5_witness :
    (updateItem netShape "b" "i").2 =
      [{ method := "GET", path := itemPath "b" "i" },
       { method := "PATCH", path := typedUpdateEndpoint "b" "i" "shape" }] :=
  (claim_c5 netShape "b" "i" shapeItem rfl).1

/-- C6: for every successful HTTP response, if the status is 204 or the
request method is DELETE, `fetchApi` returns the normalized empty success
object without parsing a body; hence `deleteItem` yields the empty success
result whatever successful status the service answered (204 or an empty
200 alike). -/
theorem claim_c6 (method : String) (r : HttpResponse)
    (hok : respOk r = true) (hcase : r.status = 204 ∨ method = "DELETE")
    (http : Request → HttpResponse) (boardId itemId : String)
    (hd : respOk (http { method := "DELETE", path := itemPath boardId itemId }) = true) :
    fetchApiHandle method r = .ok .emptyObj
    ∧ deleteItemHttp http boardId itemId = .ok .emptyObj := by
  constructor
  · rcases hcase with h | h <;> simp [fetchApiHandle, hok, h]
  · simp [deleteItemHttp, fetchApiH, fetchApiHandle, hd]

/-- Witness for C6: a 204 response on a GET, and a delete answered with an
empty 200 body, both yield the empty success object. -/
theorem claim_c6_witness :
    fetchApiHandle "GET" resp204 = .ok .emptyObj
    ∧ deleteItemHttp http200 "b" "i" = .ok .emptyObj :=
  claim_c6 "GET" resp204 rfl (Or.inl rfl) http200 "b" "i" rfl

/-- C7: every HTTP response outside the 2xx range makes `fetchApi` throw
an error carrying the status code, status text and raw body text, and
single (non-batch) operations (`getItem`, `deleteItem`,
`createStickyNote`) propagate that error unchanged to their immediate
caller. -/
theorem claim_c7 (method : String) (r : HttpResponse) (hbad : respOk r = false)
    (http : Request → HttpResponse) (boardId itemId : String)
    (hg : respOk (http { method := "GET", path := itemPath boardId itemId }) = false)
    (hdel : respOk (http { method := "DELETE", path := itemPath boardId itemId }) = false)
    (hpost : respOk (http { method := "POST", path := "/boards/" ++ boardId ++ "/sticky_notes" }) = false) :
    fetchApiHandle method r = .error (apiErrorMsg r)
    ∧ getItemHttp http boardId itemId =
        .error (apiErrorMsg (http { method := "GET", path := itemPath boardId itemId }))
    ∧ deleteItemHttp http boardId itemId =
        .error (apiErrorMsg (http { method := "DELETE", path := itemPath boardId itemId }))
    ∧ createStickyNoteHttp http boardId =
        .error (apiErrorMsg (http { method := "POST", path := "/boards/" ++ boardId ++ "/sticky_notes" })) := by
  refine ⟨?_, ?_, ?_, ?_⟩ <;>
    simp [fetchApiHandle, getItemHttp, deleteItemHttp, createStickyNoteHttp, fetchApiH,
      hbad, hg, hdel, hpost]

/-- Witness for C7: a 404 with body `nope` produces the exact error
message, propagated unchanged through `getItem`. -/
theorem claim_c7_witness :
    fetchApiHandle "GET" resp404 = .error "Miro API error: 404 Not Found - nope"
    ∧ getItemHttp http404 "b" "i" = .error "Miro API error: 404 Not Found - nope" :=
  let h := claim_c7 "GET" resp404 rfl http404 "b" "i" rfl rfl rfl
  ⟨h.1, h.2.1⟩

/-- C10: a successful response that is neither a 204 nor a DELETE, and
whose content-type header is absent or does not include
`application/json`, makes `fetchApi` return the empty object rather than
parse the body or fail. -/
theorem claim_c10 (method : String) (r : HttpResponse)
    (hok : respOk r = true) (h204 : r.status ≠ 204) (hdel : method ≠ "DELETE")
    (hct : ∀ ct, r.contentType = some ct → includesStr ct "application/json" = false) :
    fetchApiHandle method r = .ok .emptyObj := by
  have h1 : (r.status == 204) = false := by simpa using h204
  have h2 : (method == "DELETE") = false := by simpa using hdel
  cases hc : r.contentType with
  | none => simp [fetchApiHandle, hok, h1, h2, hc]
  | some ct => simp [fetchApiHandle, hok, h1, h2, hc, hct ct hc]

/-- Witness for C10: a 200 response with content type `text/html` on a GET
yields the empty object. -/
theorem claim_c10_witness : fetchApiHandle "GET" respHtml = .ok .emptyObj :=
  claim_c10 "GET" respHtml rfl (by decide) (by decide)
    (fun ct hct => by
      cases hct
      rfl)

/-- C8 as stated is refuted by JavaScript truthiness: with the
command-line token present but empty (`--token ""`) and the environment
variable set, `argv.token || env` resolves to the environment value, not
the command-line value. -/
theorem claim_c8_counterexample :
    resolveOauthToken (some "") (some "ENV_TOKEN") = some "ENV_TOKEN"
    ∧ resolveOauthToken (some "") (some "ENV_TOKEN") ≠ some "" := by
  constructor
  · rfl
  · decide

/-- C8 (amended): whenever the command-line token is present and
non-empty, it takes precedence over the environment variable; an empty
command-line token falls back to the environment variable; and when
neither source provides a token the startup guard exits fatally (exit
code 1, before the client is constructed). -/
theorem claim_c8 (t : String) (ht : t ≠ "") (env : Option String) :
    resolveOauthToken (some t) env = some t
    ∧ resolveOauthToken (some "") env = env
    ∧ startupExitsFatally none none = true := by
  refine ⟨?_, ?_, rfl⟩
  · simp [resolveOauthToken, truthyStr, ht]
  · simp [resolveOauthToken, truthyStr]

/-- Witness for C8 at concrete tokens: the non-empty command-line token
wins over the environment variable. -/
theorem claim_c8_witness :
    resolveOauthToken (some "CLI_TOKEN") (some "ENV_TOKEN") = some "CLI_TOKEN"
    ∧ resolveOauthToken (some "") (some "ENV_TOKEN") = some "ENV_TOKEN"
    ∧ startupExitsFatally none none = true :=
  claim_c8 "CLI_TOKEN" (by decide) (some "ENV_TOKEN")

end Miro
